import Mathlib

/-!
Verification of the OutfitCast core pipeline (src/OutfitCast.py) against its
natural-language specification.  The Python source is shallowly embedded:
Python ints become `Nat`/`Int`, Python strings become `String`, dicts become
structures, and the SHA-256 call from `hashlib` is implemented concretely so
that `city_to_seed` is fully executable.
-/

namespace OutfitCast

/- ------------------------------------------------------------------ -/
/- SHA-256 (the `hashlib.sha256(...).hexdigest()` call in `city_to_seed`) -/
/- ------------------------------------------------------------------ -/

/-- The 32-bit modulus, 2^32. -/
def M32 : Nat := 4294967296

/-- 32-bit modular addition. -/
def add32 (x y : Nat) : Nat := (x + y) % M32

/-- Right rotation of a 32-bit word by `n` bits. -/
def rotr32 (n x : Nat) : Nat := (x / 2 ^ n + x % 2 ^ n * 2 ^ (32 - n)) % M32

/-- Logical right shift of a word by `n` bits. -/
def shr32 (n x : Nat) : Nat := x / 2 ^ n

/-- Bitwise complement within 32 bits (for `x < 2^32`). -/
def not32 (x : Nat) : Nat := x ^^^ (M32 - 1)

def bigSigma0 (x : Nat) : Nat := rotr32 2 x ^^^ rotr32 13 x ^^^ rotr32 22 x

def bigSigma1 (x : Nat) : Nat := rotr32 6 x ^^^ rotr32 11 x ^^^ rotr32 25 x

def smallSigma0 (x : Nat) : Nat := rotr32 7 x ^^^ rotr32 18 x ^^^ shr32 3 x

def smallSigma1 (x : Nat) : Nat := rotr32 17 x ^^^ rotr32 19 x ^^^ shr32 10 x

def chFn (x y z : Nat) : Nat := (x &&& y) ^^^ (not32 x &&& z)

def majFn (x y z : Nat) : Nat := (x &&& y) ^^^ (x &&& z) ^^^ (y &&& z)

/-- SHA-256 round constants (FIPS 180-4, in decimal). -/
def K256 : List Nat :=
  [ 1116352408, 1899447441, 3049323471, 3921009573, 961987163,
    1508970993, 2453635748, 2870763221, 3624381080, 310598401,
    607225278, 1426881987, 1925078388, 2162078206, 2614888103,
    3248222580, 3835390401, 4022224774, 264347078, 604807628,
    770255983, 1249150122, 1555081692, 1996064986, 2554220882,
    2821834349, 2952996808, 3210313671, 3336571891, 3584528711,
    113926993, 338241895, 666307205, 773529912, 1294757372,
    1396182291, 1695183700, 1986661051, 2177026350, 2456956037,
    2730485921, 2820302411, 3259730800, 3345764771, 3516065817,
    3600352804, 4094571909, 275423344, 430227734, 506948616,
    659060556, 883997877, 958139571, 1322822218, 1537002063,
    1747873779, 1955562222, 2024104815, 2227730452, 2361852424,
    2428436474, 2756734187, 3204031479, 3329325298 ]

/-- SHA-256 initial hash value (FIPS 180-4, in decimal). -/
def H256 : List Nat :=
  [ 1779033703, 3144134277, 1013904242, 2773480762,
    1359893119, 2600822924, 528734635, 1541459225 ]

/-- The eight working registers of the compression function. -/
structure Regs where
  a : Nat
  b : Nat
  c : Nat
  d : Nat
  e : Nat
  f : Nat
  g : Nat
  h : Nat
deriving Repr, DecidableEq

def regsOfList (l : List Nat) : Regs :=
  { a := l.getD 0 0, b := l.getD 1 0, c := l.getD 2 0, d := l.getD 3 0,
    e := l.getD 4 0, f := l.getD 5 0, g := l.getD 6 0, h := l.getD 7 0 }

def regsToList (r : Regs) : List Nat := [r.a, r.b, r.c, r.d, r.e, r.f, r.g, r.h]

/-- One SHA-256 round; `kw` is the pair of round constant and schedule word. -/
def roundStep (st : Regs) (kw : Nat × Nat) : Regs :=
  let t1 := (st.h + bigSigma1 st.e + chFn st.e st.f st.g + kw.1 + kw.2) % M32
  let t2 := (bigSigma0 st.a + majFn st.a st.b st.c) % M32
  { a := (t1 + t2) % M32, b := st.a, c := st.b, d := st.c,
    e := (st.d + t1) % M32, f := st.e, g := st.f, h := st.g }

/-- Big-endian word from a list of bytes. -/
def wordOfBytes (bs : List Nat) : Nat := bs.foldl (fun acc b => acc * 256 + b) 0

/-- Expand a 64-byte block into the 64-word message schedule. -/
def schedule (block : List Nat) : List Nat :=
  let w16 := (List.range 16).map (fun t => wordOfBytes ((block.drop (4 * t)).take 4))
  (List.range 48).foldl (fun w _ =>
    let n := w.length
    w ++ [ (smallSigma1 (w.getD (n - 2) 0) + w.getD (n - 7) 0
            + smallSigma0 (w.getD (n - 15) 0) + w.getD (n - 16) 0) % M32 ]) w16

/-- SHA-256 compression of one 64-byte block into the running hash. -/
def compress (H : List Nat) (block : List Nat) : List Nat :=
  let final := (K256.zip (schedule block)).foldl roundStep (regsOfList H)
  List.zipWith add32 H (regsToList final)

/-- Standard SHA-256 padding: append 0x80, zeros to 56 mod 64, then the
64-bit big-endian bit length. -/
def padMessage (msg : List Nat) : List Nat :=
  let bitLen := msg.length * 8
  let z := (120 - (msg.length + 1) % 64) % 64
  msg ++ [0x80] ++ List.replicate z 0
      ++ (List.range 8).map (fun i => bitLen / 2 ^ (8 * (7 - i)) % 256)

/-- Split a (padded) byte list into its 64-byte blocks. -/
def toBlocks (l : List Nat) : List (List Nat) :=
  (List.range (l.length / 64)).map (fun b => (l.drop (64 * b)).take 64)

/-- SHA-256 digest of a byte list, as eight 32-bit words. -/
def sha256words (msg : List Nat) : List Nat :=
  (toBlocks (padMessage msg)).foldl compress H256

/-- Lowercase hex character for a nibble. -/
def toHexNibble (n : Nat) : Char :=
  if n < 10 then Char.ofNat (48 + n) else Char.ofNat (87 + n)

/-- The eight lowercase hex characters of a 32-bit word, big-endian. -/
def wordToHex (w : Nat) : List Char :=
  (List.range 8).map (fun i => toHexNibble (w / 16 ^ (7 - i) % 16))

/-- The 64 hex characters of the SHA-256 digest (Python `hexdigest()`). -/
def hexChars (msg : List Nat) : List Char :=
  ((sha256words msg).map wordToHex).flatten

/-- Python `hashlib.sha256(bytes).hexdigest()`. -/
def sha256hex (msg : List Nat) : String := String.mk (hexChars msg)

/-- UTF-8 encoding of one character (Python `str.encode("utf-8")`). -/
def charUtf8 (c : Char) : List Nat :=
  let n := c.toNat
  if n < 0x80 then [n]
  else if n < 0x800 then [0xc0 + n / 64, 0x80 + n % 64]
  else if n < 0x10000 then [0xe0 + n / 4096, 0x80 + n / 64 % 64, 0x80 + n % 64]
  else [0xf0 + n / 262144, 0x80 + n / 4096 % 64, 0x80 + n / 64 % 64, 0x80 + n % 64]

/-- UTF-8 bytes of a string. -/
def strBytes (s : String) : List Nat := (s.toList.map charUtf8).flatten

/-- Value of one hex digit character, as parsed by Python `int(_, 16)`
on the lowercase digits produced by `hexdigest()`. -/
def hexVal (c : Char) : Nat := if c.toNat ≤ 57 then c.toNat - 48 else c.toNat - 87

/-- Parse a list of hex digit characters as a base-16 number. -/
def parseHexL (cs : List Char) : Nat := cs.foldl (fun acc c => acc * 16 + hexVal c) 0

/-- `city_to_seed` from src/OutfitCast.py: empty string maps to 0, otherwise
the first 8 hex digits of the SHA-256 digest of the UTF-8 bytes, parsed as
an integer (`int(h[:8], 16)`). -/
def city_to_seed (city : String) : Nat :=
  if city = "" then 0 else parseHexL ((hexChars (strBytes city)).take 8)

/- ------------------------------------------------------------------ -/
/- Weather synthesis (`synthesize_weather`)                            -/
/- ------------------------------------------------------------------ -/

/-- A weather reading, the dict returned by `synthesize_weather`. -/
structure Weather where
  temp_c : Int
  humidity : Int
  precip_chance : Int
  wind_kmh : Int
  condition : String
deriving Repr, DecidableEq

/-- The condition cascade of `synthesize_weather` (lines 124-137). -/
def conditionOf (temp_c humidity precip wind : Int) : String :=
  if precip > 60 then (if wind > 25 then "storm" else "rain")
  else if precip > 25 then (if humidity > 60 then "rain" else "partly")
  else if temp_c ≤ 5 then "snow"
  else if humidity > 80 ∧ temp_c < 20 then "mist"
  else if temp_c ≥ 30 then "clear"
  else if temp_c ≥ 22 then "partly"
  else "cloudy"

/-- The body of `synthesize_weather` after `seed = city_to_seed(city)`:
the four field formulas and the condition cascade. -/
def weatherFromSeed (seed : Nat) : Weather :=
  let temp_c : Int := 12 + (seed % 26 : Nat)
  let humidity : Int := 30 + ((seed >>> 3) % 71 : Nat)
  let precip : Int := ((seed >>> 6) % 101 : Nat)
  let wind : Int := 5 + ((seed >>> 10) % 36 : Nat)
  { temp_c := temp_c, humidity := humidity, precip_chance := precip,
    wind_kmh := wind, condition := conditionOf temp_c humidity precip wind }

/-- `synthesize_weather` from src/OutfitCast.py. -/
def synthesize_weather (city : String) : Weather :=
  weatherFromSeed (city_to_seed city)

/- ------------------------------------------------------------------ -/
/- Hourly forecast (`generate_hourly_forecast`)                        -/
/- ------------------------------------------------------------------ -/

/-- The `WEATHER_EMOJI` dict. -/
def WEATHER_EMOJI (k : String) : Option String :=
  if k = "clear" then some "☀️"
  else if k = "partly" then some "⛅"
  else if k = "cloudy" then some "☁️"
  else if k = "rain" then some "🌧️"
  else if k = "storm" then some "⛈️"
  else if k = "snow" then some "❄️"
  else if k = "mist" then some "🌫️"
  else none

/-- Dict indexing `WEATHER_EMOJI[k]` (all used keys are present). -/
def emojiAt (k : String) : String := (WEATHER_EMOJI k).getD ""

/-- Dict access `WEATHER_EMOJI.get(k, d)`. -/
def emojiGet (k d : String) : String := (WEATHER_EMOJI k).getD d

/-- One entry of the hourly list: `{"hour": ..., "temp": ..., "emoji": ...}`. -/
structure HourlySlot where
  hour : String
  temp : Int
  emoji : String
deriving Repr, DecidableEq

/-- The label `(now + timedelta(hours=i)).strftime("%I %p").lstrip("0")`:
12-hour clock with AM/PM, no leading zero, for absolute hour `h`. -/
def hourLabel (h : Nat) : String :=
  let h24 := h % 24
  let h12 := if h24 % 12 = 0 then 12 else h24 % 12
  toString h12 ++ " " ++ (if h24 < 12 then "AM" else "PM")

/-- `generate_hourly_forecast` from src/OutfitCast.py.  The wall clock read
by `datetime.now()` is passed explicitly as the hour-of-day `nowHour`. -/
def generate_hourly_forecast (base_temp : Int) (base_condition : String)
    (nowHour : Nat) : List HourlySlot :=
  let seed_offset := base_temp % 7
  (List.range 6).map (fun i =>
    let hour_time := hourLabel (nowHour + i)
    let temp := base_temp + ((i : Int) + seed_offset) % 7 - 3
    let cond_variation_index := ((i : Int) + seed_offset) % 5
    let emoji :=
      if (base_condition = "rain" ∨ base_condition = "storm") ∧ i % 2 = 0 then
        emojiAt "rain"
      else if base_condition = "clear" then
        (if cond_variation_index < 3 then emojiAt "clear" else emojiAt "partly")
      else if base_condition = "partly" then emojiAt "partly"
      else if base_condition = "cloudy" then emojiAt "cloudy"
      else if base_condition = "mist" then emojiAt "mist"
      else if base_condition = "snow" then emojiAt "snow"
      else emojiGet base_condition "🌤️"
    { hour := hour_time, temp := temp, emoji := emoji })

/- ------------------------------------------------------------------ -/
/- Outfit rule engine (`outfit_logic_from_weather`)                    -/
/- ------------------------------------------------------------------ -/

/-- An outfit dict built by the `outfit(...)` helper. -/
structure Outfit where
  top : String
  bottom : String
  outerwear : String
  footwear : String
  accessories : String
deriving Repr, DecidableEq

/-- The `outfit(top, bottom, outer, footwear, accessories)` helper. -/
def mkOutfit (top bottom outer footwear accessories : String) : Outfit :=
  { top := top, bottom := bottom, outerwear := outer,
    footwear := footwear, accessories := accessories }

/-- Python `str.strip(", ")`: remove leading and trailing commas/spaces. -/
def isCommaSpace (c : Char) : Bool := c = ',' || c = ' '

def pyStripCS (s : String) : String :=
  String.mk (((s.toList.dropWhile isCommaSpace).reverse.dropWhile isCommaSpace).reverse)

/-- Python `pat in s` on character lists. -/
def containsSub (pat : List Char) : List Char → Bool
  | [] => pat.isEmpty
  | c :: rest => pat.isPrefixOf (c :: rest) || containsSub pat rest

/-- Python `s.replace(pat, repl)` on character lists (left-to-right,
non-overlapping; only ever called with the non-empty pattern "Wool"). -/
def replaceSub (pat repl s : List Char) : List Char :=
  match s with
  | [] => []
  | c :: rest =>
    if pat ≠ [] ∧ pat.isPrefixOf (c :: rest) then
      repl ++ replaceSub pat repl (rest.drop (pat.length - 1))
    else c :: replaceSub pat repl rest
termination_by s.length
decreasing_by
  · simp [List.length_drop]
    omega
  · simp

/-- Python `pat in s` on strings. -/
def strContains (s pat : String) : Bool := containsSub pat.toList s.toList

/-- Python `s.replace(pat, repl)` on strings. -/
def pyReplace (s pat repl : String) : String :=
  String.mk (replaceSub pat.toList repl.toList s.toList)

/-- Python `s.strip()`: remove leading and trailing whitespace. -/
def pyStripWs (s : String) : String :=
  String.mk (((s.toList.dropWhile Char.isWhitespace).reverse.dropWhile Char.isWhitespace).reverse)

/-- Python `s.split('→')[0]`: the part of `s` before the first arrow. -/
def beforeArrow (s : String) : String :=
  String.mk (s.toList.takeWhile (fun c => c ≠ '→'))

/-- The outcome of Phase 1: the selected band primary and two alternates,
its match weight, and its rationale note. -/
structure BandChoice where
  primary : Outfit
  alt1 : Outfit
  alt2 : Outfit
  weight : Int
  note : String
deriving Repr, DecidableEq

/-- The `if/elif/else` band cascade of `outfit_logic_from_weather`
(lines 218-243). -/
def bandSelect (temp hum precip : Int) : BandChoice :=
  if temp ≥ 30 ∧ hum ≥ 65 then
    { primary := mkOutfit "Breathable cotton t-shirt" "Light cotton shorts" "None" "Sandals" "Cap",
      alt1 := mkOutfit "Linen shirt" "Chino shorts" "Light scarf" "Slip-ons" "Sunglasses",
      alt2 := mkOutfit "Moisture-wicking tee" "Athletic shorts" "None" "Sport sandals"
        (if precip > 30 then "Small umbrella" else "Cap"),
      weight := 2,
      note := "High temperature (" ++ toString temp ++ " °C) and humidity ("
        ++ toString hum ++ "%) → breathable fabrics" }
  else if 22 ≤ temp ∧ temp < 30 then
    { primary := mkOutfit "Light long-sleeve tee" "Chinos" "Light layer (cardigan)" "Sneakers" "Watch",
      alt1 := mkOutfit "Polo shirt" "Jeans" "Light jacket" "Casual sneakers" "Sunglasses",
      alt2 := mkOutfit "Button-up shirt" "Tailored shorts" "Light hoodie" "Loafers" "Cap",
      weight := 2,
      note := "Moderate temperature (" ++ toString temp ++ " °C) → light layers" }
  else if 18 ≤ temp ∧ temp < 22 then
    { primary := mkOutfit "Long-sleeve shirt" "Jeans" "Light jacket" "Sneakers" "Beanie (optional)",
      alt1 := mkOutfit "Thermal tee" "Corduroy pants" "Denim jacket" "Ankle boots" "Scarf",
      alt2 := mkOutfit "Sweater" "Chinos" "Trench coat" "Casual boots" "Watch",
      weight := 2,
      note := "Cool temperature (" ++ toString temp ++ " °C) → consider light outerwear" }
  else
    { primary := mkOutfit "Thermal top" "Warm trousers" "Warm coat" "Boots" "Scarf & gloves",
      alt1 := mkOutfit "Wool sweater" "Jeans" "Puffer jacket" "Insulated boots" "Beanie",
      alt2 := mkOutfit "Turtleneck" "Wool skirt + tights" "Overcoat" "Knee boots" "Gloves",
      weight := 3,
      note := "Cold temperature (" ++ toString temp ++ " °C) → warm outerwear recommended" }

/-- The `if precip > 40` modifier block (lines 246-252). -/
def rainStep (precip : Int) (primary : Outfit) (matchCount : Int)
    (reasons : List String) : Outfit × Int × List String :=
  if precip > 40 then
    let p1 := { primary with accessories := pyStripCS (primary.accessories ++ ", Umbrella") }
    let p2 := if p1.outerwear = "None" then { p1 with outerwear := "Packable raincoat" } else p1
    (p2, matchCount + 2,
      reasons ++ ["High precipitation chance (" ++ toString precip
        ++ "%) → carry umbrella or wear raincoat"])
  else (primary, matchCount, reasons)

/-- The `if hum > 70` modifier block (lines 255-259). -/
def humidityStep (hum : Int) (primary : Outfit) (matchCount : Int)
    (reasons : List String) : Outfit × Int × List String :=
  if hum > 70 then
    let newTop :=
      if strContains primary.top "Wool" then
        pyReplace primary.top "Wool" "Breathable wool-blend"
      else primary.top
    ({ primary with top := newTop },
      matchCount + 1,
      reasons ++ ["High humidity (" ++ toString hum
        ++ "%) → prefer breathable fabrics and avoid heavy layers"])
  else (primary, matchCount, reasons)

/-- The `if wind > 30` modifier block (lines 262-265). -/
def windStep (wind : Int) (matchCount : Int) (reasons : List String) : Int × List String :=
  if wind > 30 then
    (matchCount + 1,
      reasons ++ ["Windy (" ++ toString wind
        ++ " km/h) → consider secure footwear and windproof layers"])
  else (matchCount, reasons)

/-- The `ensure_variation(base, alt)` helper (lines 277-281). -/
def ensure_variation (base alt : Outfit) : Outfit :=
  if base.footwear = alt.footwear ∧ base.accessories = alt.accessories then
    { alt with footwear := alt.footwear ++ " (alt)" }
  else alt

/-- The result dict of `outfit_logic_from_weather`. -/
structure OutfitResult where
  primary : Outfit
  alternates : List Outfit
  confidence : Int
  reasoning : String
  bullets : List String
deriving Repr, DecidableEq

/-- `outfit_logic_from_weather` from src/OutfitCast.py, on the four numeric
fields it reads from the weather dict. -/
def outfit_logic_from_weather (temp hum precip wind : Int) : OutfitResult :=
  let b := bandSelect temp hum precip
  let r1 := rainStep precip b.primary b.weight [b.note]
  let r2 := humidityStep hum r1.1 r1.2.1 r1.2.2
  let r3 := windStep wind r2.2.1 r2.2.2
  let primary := r2.1
  let matchCount := r3.1
  let reasons := r3.2
  let confidence0 : Int := min 100 (40 + matchCount * 12)
  let confidence := if temp ≥ 30 ∨ temp < 18 then min 100 (confidence0 + 8) else confidence0
  let reasoning := String.intercalate " and "
      ((reasons.take 2).map (fun s => pyStripWs (beforeArrow s))) ++ " — choose accordingly."
  let alt1 := ensure_variation primary b.alt1
  let alt2 := ensure_variation primary b.alt2
  { primary := primary, alternates := [alt1, alt2], confidence := confidence,
    reasoning := reasoning, bullets := reasons }

/-- The same engine with the cosmetic wool rewrite of the humidity modifier
removed (the modifier still fires: same note, same weight).  Used to state
that the rewrite step has no observable effect beyond note and weight. -/
def humidityStepNoRewrite (hum : Int) (primary : Outfit) (matchCount : Int)
    (reasons : List String) : Outfit × Int × List String :=
  if hum > 70 then
    (primary, matchCount + 1,
      reasons ++ ["High humidity (" ++ toString hum
        ++ "%) → prefer breathable fabrics and avoid heavy layers"])
  else (primary, matchCount, reasons)

/-- `outfit_logic_from_weather` with the wool rewrite dropped. -/
def outfit_logic_noRewrite (temp hum precip wind : Int) : OutfitResult :=
  let b := bandSelect temp hum precip
  let r1 := rainStep precip b.primary b.weight [b.note]
  let r2 := humidityStepNoRewrite hum r1.1 r1.2.1 r1.2.2
  let r3 := windStep wind r2.2.1 r2.2.2
  let primary := r2.1
  let matchCount := r3.1
  let reasons := r3.2
  let confidence0 : Int := min 100 (40 + matchCount * 12)
  let confidence := if temp ≥ 30 ∨ temp < 18 then min 100 (confidence0 + 8) else confidence0
  let reasoning := String.intercalate " and "
      ((reasons.take 2).map (fun s => pyStripWs (beforeArrow s))) ++ " — choose accordingly."
  let alt1 := ensure_variation primary b.alt1
  let alt2 := ensure_variation primary b.alt2
  { primary := primary, alternates := [alt1, alt2], confidence := confidence,
    reasoning := reasoning, bullets := reasons }

/-- The total weight of the fired rules: the Phase 1 band weight plus the
weights of the three Phase 2 modifiers that fire. -/
def matchWeightSum (temp hum precip wind : Int) : Int :=
  (bandSelect temp hum precip).weight
    + (if precip > 40 then 2 else 0)
    + (if hum > 70 then 1 else 0)
    + (if wind > 30 then 1 else 0)

/- ------------------------------------------------------------------ -/
/- Sanity checks of the SHA-256 embedding against published vectors    -/
/- ------------------------------------------------------------------ -/

/-- FIPS 180-2 test vector: SHA-256 of the ASCII string "abc". -/
theorem sha256_test_vector_abc :
    sha256hex (strBytes "abc")
      = "ba7816bf8f01cfea414140de5dae2223b00361a396177a9cb410ff61f20015ad" := by
  decide

/-- SHA-256 of the empty message. -/
theorem sha256_test_vector_empty :
    sha256hex (strBytes "")
      = "e3b0c44298fc1c149afbf4c8996fb92427ae41e4649b934ca495991b7852b855" := by
  decide

/- ------------------------------------------------------------------ -/
/- Claim theorems                                                      -/
/- ------------------------------------------------------------------ -/

/-- Claim C1 (code bug): the claim says the cold triad (weight 3) is selected
exactly when temperature < 18, and that the four band tests partition the
inputs.  The `else` branch of the code (commented `# temp < 18`) also catches
readings with temperature ≥ 30 and humidity < 65: for the reachable reading
temperature 30, humidity 32 (produced by seed 18) the engine picks the cold
triad with weight 3 and returns the cold "Thermal top" primary, although
30 ≥ 18. -/
theorem c1_cold_band_reachable_at_temp_30 :
    (weatherFromSeed 18).temp_c = 30
    ∧ (weatherFromSeed 18).humidity = 32
    ∧ (bandSelect 30 32 0).weight = 3
    ∧ (bandSelect 30 32 0).primary = mkOutfit "Thermal top" "Warm trousers"
        "Warm coat" "Boots" "Scarf & gloves"
    ∧ (outfit_logic_from_weather 30 32 0 5).primary.top = "Thermal top"
    ∧ ¬ ((30 : Int) < 18) := by
  refine ⟨by decide, by decide, by decide, by decide, by decide, by decide⟩

/-- Claim C2 (counterexample): for the reading temperature=35, humidity=70,
precip=10, wind=10 the claim asserts the humidity modifier fires and the
returned confidence is 84; the engine actually returns confidence 72,
because the humidity test `hum > 70` is strict and 70 is not > 70. -/
theorem c2_confidence_is_72_not_84 :
    (outfit_logic_from_weather 35 70 10 10).confidence = 72
    ∧ (outfit_logic_from_weather 35 70 10 10).confidence ≠ 84 := by
  refine ⟨by decide, by decide⟩

/-- Claim C2 (amended): for temperature=35, humidity=70, precip=10, wind=10
the engine selects the hot-humid band, the humidity modifier does not fire
(70 is not > 70), so the only rationale note is the band note and the
confidence is min(100, 40 + 12*2) + 8 = 72 (the extreme-temperature bonus
applies since 35 ≥ 30). -/
theorem c2_amended_hot_humid_72 :
    (outfit_logic_from_weather 35 70 10 10).primary
      = mkOutfit "Breathable cotton t-shirt" "Light cotton shorts" "None" "Sandals" "Cap"
    ∧ (outfit_logic_from_weather 35 70 10 10).bullets
      = ["High temperature (35 °C) and humidity (70%) → breathable fabrics"]
    ∧ (outfit_logic_from_weather 35 70 10 10).confidence
      = min 100 (min 100 (40 + 12 * 2) + 8) := by
  refine ⟨by decide, by decide, by decide⟩

/-- Claim C4: for every seed (in particular every 32-bit unsigned seed), the
synthesized reading satisfies the stated shift-and-modulo field formulas and
the stated ranges: temperatureC in [12,37], humidityPct in [30,100],
precipChancePct in [0,100], windKmh in [5,40]. -/
theorem c4_field_formulas_and_ranges (seed : Nat) :
    ((weatherFromSeed seed).temp_c = 12 + (seed % 26 : Nat)
      ∧ 12 ≤ (weatherFromSeed seed).temp_c ∧ (weatherFromSeed seed).temp_c ≤ 37)
    ∧ ((weatherFromSeed seed).humidity = 30 + ((seed >>> 3) % 71 : Nat)
      ∧ 30 ≤ (weatherFromSeed seed).humidity ∧ (weatherFromSeed seed).humidity ≤ 100)
    ∧ ((weatherFromSeed seed).precip_chance = ((seed >>> 6) % 101 : Nat)
      ∧ 0 ≤ (weatherFromSeed seed).precip_chance
      ∧ (weatherFromSeed seed).precip_chance ≤ 100)
    ∧ ((weatherFromSeed seed).wind_kmh = 5 + ((seed >>> 10) % 36 : Nat)
      ∧ 5 ≤ (weatherFromSeed seed).wind_kmh ∧ (weatherFromSeed seed).wind_kmh ≤ 40) := by
  refine ⟨⟨rfl, ?_, ?_⟩, ⟨rfl, ?_, ?_⟩, ⟨rfl, ?_, ?_⟩, ⟨rfl, ?_, ?_⟩⟩ <;>
    (simp only [weatherFromSeed]; omega)

/-- The four numeric weather fields, used to state the decision list of the spec. -/
structure Fields where
  temp : Int
  hum : Int
  precip : Int
  wind : Int

/-- Modelled from the spec, section 4.2: the ordered 9-branch decision list
for the weather condition (storm; rain; rain; partly; snow; mist; clear;
partly; cloudy), written as an explicit list of (predicate, outcome) pairs. -/
def specConditionRules : List ((Fields → Bool) × String) :=
  [ (fun f => decide (f.precip > 60 ∧ f.wind > 25), "storm"),
    (fun f => decide (f.precip > 60), "rain"),
    (fun f => decide (f.precip > 25 ∧ f.hum > 60), "rain"),
    (fun f => decide (f.precip > 25), "partly"),
    (fun f => decide (f.temp ≤ 5), "snow"),
    (fun f => decide (f.hum > 80 ∧ f.temp < 20), "mist"),
    (fun f => decide (f.temp ≥ 30), "clear"),
    (fun f => decide (f.temp ≥ 22), "partly"),
    (fun _ => true, "cloudy") ]

/-- First-match evaluation of an ordered decision list. -/
def firstMatch (rules : List ((Fields → Bool) × String)) (f : Fields) : String :=
  match rules with
  | [] => ""
  | (p, label) :: rest => if p f then label else firstMatch rest f

/-- Claim C3: for every combination of the four numeric weather fields, the
condition computed by the cascade of the synthesizer equals the first matching
rule of the ordered 9-branch decision list of spec section 4.2, and the
result is always one of the seven condition values (the classification is a
total function producing exactly one condition). -/
theorem c3_condition_equals_spec_decision_list (temp hum precip wind : Int) :
    conditionOf temp hum precip wind = firstMatch specConditionRules ⟨temp, hum, precip, wind⟩
    ∧ conditionOf temp hum precip wind
      ∈ (["clear", "partly", "cloudy", "rain", "storm", "snow", "mist"] : List String) := by
  constructor
  · simp only [conditionOf, firstMatch, specConditionRules, decide_eq_true_eq]
    split_ifs <;> first | rfl | omega
  · simp only [conditionOf]
    split_ifs <;> simp

/-- The Phase 1 band weight is 2 for the three upper bands and 3 for the
`else` band. -/
theorem bandSelect_weight_bounds (temp hum precip : Int) :
    2 ≤ (bandSelect temp hum precip).weight ∧ (bandSelect temp hum precip).weight ≤ 3 := by
  unfold bandSelect
  split_ifs <;> simp

/-- The match counter after the precipitation modifier. -/
theorem rainStep_count (precip : Int) (p : Outfit) (m : Int) (r : List String) :
    (rainStep precip p m r).2.1 = m + (if precip > 40 then 2 else 0) := by
  unfold rainStep
  split_ifs <;> simp

/-- The match counter after the humidity modifier. -/
theorem humidityStep_count (hum : Int) (p : Outfit) (m : Int) (r : List String) :
    (humidityStep hum p m r).2.1 = m + (if hum > 70 then 1 else 0) := by
  unfold humidityStep
  split_ifs <;> simp

/-- The match counter after the wind modifier. -/
theorem windStep_count (wind : Int) (m : Int) (r : List String) :
    (windStep wind m r).1 = m + (if wind > 30 then 1 else 0) := by
  unfold windStep
  split_ifs <;> simp

/-- Claim C5: for every reading, the returned confidence equals
min(100, 40 + 12*W) for W the total weight of the fired rules, with 8 more
(capped at 100) exactly when temperature ≥ 30 or temperature < 18; in
particular the confidence always lies in [0, 100]. -/
theorem c5_confidence_formula_and_bounds (temp hum precip wind : Int) :
    (outfit_logic_from_weather temp hum precip wind).confidence
      = (if temp ≥ 30 ∨ temp < 18 then
          min 100 (min 100 (40 + 12 * matchWeightSum temp hum precip wind) + 8)
        else min 100 (40 + 12 * matchWeightSum temp hum precip wind))
    ∧ 0 ≤ (outfit_logic_from_weather temp hum precip wind).confidence
    ∧ (outfit_logic_from_weather temp hum precip wind).confidence ≤ 100 := by
  have hb := bandSelect_weight_bounds temp hum precip
  simp only [outfit_logic_from_weather, matchWeightSum, windStep_count,
    humidityStep_count, rainStep_count]
  split_ifs <;> refine ⟨?_, ?_, ?_⟩ <;> omega

/-- After `ensure_variation`, an alternate never agrees with the base outfit
on both footwear and accessories: if it would, the appended " (alt)" marker
makes the footwear strictly longer than the base footwear. -/
theorem ensure_variation_ne (base alt : Outfit) :
    ¬ ((ensure_variation base alt).footwear = base.footwear
       ∧ (ensure_variation base alt).accessories = base.accessories) := by
  unfold ensure_variation
  split_ifs with hcond
  · rintro ⟨hfw, _⟩
    obtain ⟨h1, _⟩ := hcond
    simp only at hfw
    have hlen := congrArg String.length hfw
    rw [String.length_append, h1] at hlen
    have : (" (alt)" : String).length = 6 := by decide
    omega
  · rintro ⟨hfw, hacc⟩
    exact hcond ⟨hfw.symm, hacc.symm⟩

/-- Claim C6: in every returned Recommendation, no alternate outfit agrees
with the primary outfit on both the footwear and the accessories field; and
whenever an alternate as constructed would agree on both, `ensure_variation`
suffixes its footwear with the " (alt)" variation marker. -/
theorem c6_alternate_distinct (temp hum precip wind : Int) :
    (∀ alt ∈ (outfit_logic_from_weather temp hum precip wind).alternates,
      ¬ (alt.footwear = (outfit_logic_from_weather temp hum precip wind).primary.footwear
         ∧ alt.accessories
             = (outfit_logic_from_weather temp hum precip wind).primary.accessories))
    ∧ (∀ base alt : Outfit,
        base.footwear = alt.footwear → base.accessories = alt.accessories →
        (ensure_variation base alt).footwear = alt.footwear ++ " (alt)") := by
  constructor
  · simp only [outfit_logic_from_weather, List.mem_cons, List.not_mem_nil, or_false]
    rintro alt (rfl | rfl) <;> exact ensure_variation_ne _ _
  · intro base alt h1 h2
    unfold ensure_variation
    rw [if_pos ⟨h1, h2⟩]

/-- Claim C6 witness: a concrete alternate of a concrete recommendation is
distinct from the primary, and a concrete blocked pair gets the marker. -/
theorem c6_witness :
    (mkOutfit "Linen shirt" "Chino shorts" "Light scarf" "Slip-ons" "Sunglasses"
        ∈ (outfit_logic_from_weather 35 70 10 10).alternates
      ∧ ¬ ((mkOutfit "Linen shirt" "Chino shorts" "Light scarf" "Slip-ons"
              "Sunglasses").footwear
            = (outfit_logic_from_weather 35 70 10 10).primary.footwear
          ∧ (mkOutfit "Linen shirt" "Chino shorts" "Light scarf" "Slip-ons"
              "Sunglasses").accessories
            = (outfit_logic_from_weather 35 70 10 10).primary.accessories))
    ∧ ((mkOutfit "a" "b" "c" "Boots" "Cap").footwear
          = (mkOutfit "x" "y" "z" "Boots" "Cap").footwear
      ∧ (ensure_variation (mkOutfit "a" "b" "c" "Boots" "Cap")
            (mkOutfit "x" "y" "z" "Boots" "Cap")).footwear
          = (mkOutfit "x" "y" "z" "Boots" "Cap").footwear ++ " (alt)") :=
  ⟨⟨by decide, (c6_alternate_distinct 35 70 10 10).1 _ (by decide)⟩,
   ⟨by decide, (c6_alternate_distinct 0 0 0 0).2 _ _ (by decide) (by decide)⟩⟩

/-- Claim C7: the hourly generator returns exactly 6 slots; slot i is
labelled with the 12-hour clock rendering of now + i hours (so the hour
offsets increase strictly by one per slot), its temperature is
baseTemperature + ((i + baseTemperature mod 7) mod 7) - 3, and hence every
slot temperature is within [-3, +3] of the base temperature. -/
theorem c7_hourly_six_slots (base_temp : Int) (base_condition : String) (nowHour : Nat) :
    (generate_hourly_forecast base_temp base_condition nowHour).length = 6
    ∧ ∀ i, i < 6 →
        ((generate_hourly_forecast base_temp base_condition nowHour).getD i
            { hour := "", temp := 0, emoji := "" }).hour = hourLabel (nowHour + i)
        ∧ ((generate_hourly_forecast base_temp base_condition nowHour).getD i
            { hour := "", temp := 0, emoji := "" }).temp
            = base_temp + ((i : Int) + base_temp % 7) % 7 - 3
        ∧ base_temp - 3
            ≤ ((generate_hourly_forecast base_temp base_condition nowHour).getD i
                { hour := "", temp := 0, emoji := "" }).temp
        ∧ ((generate_hourly_forecast base_temp base_condition nowHour).getD i
            { hour := "", temp := 0, emoji := "" }).temp ≤ base_temp + 3 := by
  refine ⟨by simp [generate_hourly_forecast], ?_⟩
  intro i hi
  have ht : ((generate_hourly_forecast base_temp base_condition nowHour).getD i
      { hour := "", temp := 0, emoji := "" }).temp
      = base_temp + ((i : Int) + base_temp % 7) % 7 - 3 := by
    interval_cases i <;> rfl
  have hh : ((generate_hourly_forecast base_temp base_condition nowHour).getD i
      { hour := "", temp := 0, emoji := "" }).hour = hourLabel (nowHour + i) := by
    interval_cases i <;> rfl
  refine ⟨hh, ht, ?_, ?_⟩ <;> rw [ht] <;> omega

/-- Claim C7 witness: the slot facts at base temperature 20, condition
"clear", clock hour 9, slot index 3. -/
theorem c7_witness :
    3 < 6
    ∧ (((generate_hourly_forecast 20 "clear" 9).getD 3
          { hour := "", temp := 0, emoji := "" }).hour = hourLabel (9 + 3)
      ∧ ((generate_hourly_forecast 20 "clear" 9).getD 3
          { hour := "", temp := 0, emoji := "" }).temp
          = 20 + ((3 : Int) + 20 % 7) % 7 - 3
      ∧ 20 - 3 ≤ ((generate_hourly_forecast 20 "clear" 9).getD 3
          { hour := "", temp := 0, emoji := "" }).temp
      ∧ ((generate_hourly_forecast 20 "clear" 9).getD 3
          { hour := "", temp := 0, emoji := "" }).temp ≤ 20 + 3) :=
  ⟨by decide, (c7_hourly_six_slots 20 "clear" 9).2 3 (by decide)⟩

/-- The precipitation modifier never changes the top of the outfit. -/
theorem rainStep_top (precip : Int) (p : Outfit) (m : Int) (r : List String) :
    (rainStep precip p m r).1.top = p.top := by
  unfold rainStep
  split_ifs with h1
  · dsimp only
    split_ifs <;> rfl
  · rfl

/-- The rewriting-free humidity modifier leaves the outfit unchanged. -/
theorem humidityStepNoRewrite_fst (hum : Int) (p : Outfit) (m : Int) (r : List String) :
    (humidityStepNoRewrite hum p m r).1 = p := by
  unfold humidityStepNoRewrite
  split_ifs <;> rfl

/-- When the primary top does not contain "Wool", the humidity modifier
behaves exactly like its rewriting-free variant. -/
theorem humidityStep_noWool (hum : Int) (p : Outfit) (m : Int) (r : List String)
    (hw : strContains p.top "Wool" = false) :
    humidityStep hum p m r = humidityStepNoRewrite hum p m r := by
  unfold humidityStep humidityStepNoRewrite
  split_ifs with h1 h2
  · rw [hw] at h2
    exact Bool.noConfusion h2
  · rfl
  · rfl

/-- Claim C10: no primary top of any band contains the substring "Wool", the
primary top returned by the engine is exactly the top of the selected band (the
humidity wool-rewrite never changes it), and the output of the engine equals the
output of the engine with the rewrite step removed — only the note and weight of the modifier are observable. -/
theorem c10_wool_rewrite_is_inert (temp hum precip wind : Int) :
    strContains (bandSelect temp hum precip).primary.top "Wool" = false
    ∧ (outfit_logic_from_weather temp hum precip wind).primary.top
        = (bandSelect temp hum precip).primary.top
    ∧ outfit_logic_from_weather temp hum precip wind
        = outfit_logic_noRewrite temp hum precip wind := by
  have hA : strContains (bandSelect temp hum precip).primary.top "Wool" = false := by
    unfold bandSelect
    split_ifs <;> rfl
  have hw : strContains (rainStep precip (bandSelect temp hum precip).primary
      (bandSelect temp hum precip).weight [(bandSelect temp hum precip).note]).1.top
      "Wool" = false := by
    rw [rainStep_top]
    exact hA
  refine ⟨hA, ?_, ?_⟩
  · simp only [outfit_logic_from_weather]
    rw [humidityStep_noWool hum _ _ _ hw, humidityStepNoRewrite_fst, rainStep_top]
  · simp only [outfit_logic_from_weather, outfit_logic_noRewrite]
    rw [humidityStep_noWool hum _ _ _ hw]

/-- The compression function preserves the hash length of 8 words. -/
theorem compress_length (H b : List Nat) (hH : H.length = 8) :
    (compress H b).length = 8 := by
  simp [compress, List.length_zipWith, regsToList, hH]

/-- Every word produced by 32-bit modular addition is below 2^32. -/
theorem mem_zipWith_add32_lt (l1 l2 : List Nat) :
    ∀ x ∈ List.zipWith add32 l1 l2, x < M32 := by
  induction l1 generalizing l2 with
  | nil => intro x hx; simp at hx
  | cons a as ih =>
    intro x hx
    cases l2 with
    | nil => simp at hx
    | cons b bs =>
      rcases (by simpa using hx : x = add32 a b ∨ x ∈ List.zipWith add32 as bs) with rfl | hx2
      · exact Nat.mod_lt _ (by decide)
      · exact ih bs x hx2

/-- Every word of a compressed hash is below 2^32. -/
theorem compress_allLt (H b : List Nat) : ∀ x ∈ compress H b, x < M32 := by
  intro x hx
  simp only [compress] at hx
  exact mem_zipWith_add32_lt _ _ x hx

/-- Folding the compression function over blocks preserves the length 8. -/
theorem foldl_compress_length (bs : List (List Nat)) (H : List Nat)
    (hH : H.length = 8) : (bs.foldl compress H).length = 8 := by
  induction bs generalizing H with
  | nil => simpa using hH
  | cons b rest ih => rw [List.foldl_cons]; exact ih _ (compress_length _ _ hH)

/-- After at least one block, every hash word is below 2^32. -/
theorem foldl_compress_allLt (bs : List (List Nat)) (H : List Nat) (hbs : bs ≠ []) :
    ∀ x ∈ bs.foldl compress H, x < M32 := by
  induction bs generalizing H with
  | nil => exact absurd rfl hbs
  | cons b rest ih =>
    cases rest with
    | nil => intro x hx; rw [List.foldl_cons] at hx; simpa using compress_allLt _ _ x hx
    | cons b2 rest2 =>
      intro x hx
      rw [List.foldl_cons] at hx
      exact ih _ (List.cons_ne_nil _ _) x hx

/-- Length of a padded message. -/
theorem padMessage_length (m : List Nat) :
    (padMessage m).length = m.length + 1 + (120 - (m.length + 1) % 64) % 64 + 8 := by
  simp [padMessage]
  omega

/-- A padded message always holds at least one full 64-byte block. -/
theorem padMessage_length_ge (m : List Nat) : 64 ≤ (padMessage m).length := by
  rw [padMessage_length]
  omega

/-- A byte list of length at least 64 splits into at least one block. -/
theorem toBlocks_ne_nil (l : List Nat) (hl : 64 ≤ l.length) : toBlocks l ≠ [] := by
  simp only [toBlocks, ne_eq, List.map_eq_nil_iff, List.range_eq_nil]
  omega

/-- The SHA-256 digest always consists of 8 words. -/
theorem sha256words_length (m : List Nat) : (sha256words m).length = 8 :=
  foldl_compress_length _ _ rfl

/-- Every digest word is below 2^32. -/
theorem sha256words_allLt (m : List Nat) : ∀ x ∈ sha256words m, x < M32 :=
  foldl_compress_allLt _ _ (toBlocks_ne_nil _ (padMessage_length_ge m))

/-- The first digest word is below 2^32. -/
theorem sha256words_headD_lt (m : List Nat) : (sha256words m).headD 0 < M32 := by
  have h8 := sha256words_length m
  cases hsw : sha256words m with
  | nil => rw [hsw] at h8; simp at h8
  | cons w0 rest =>
    have : w0 ∈ sha256words m := by rw [hsw]; exact List.mem_cons_self _ _
    simpa using sha256words_allLt m w0 this

/-- A word renders to exactly 8 hex characters. -/
theorem wordToHex_length (w : Nat) : (wordToHex w).length = 8 := by
  simp [wordToHex]

/-- The first 8 hex characters of the digest render its first word. -/
theorem hexChars_take8 (m : List Nat) :
    (hexChars m).take 8 = wordToHex ((sha256words m).headD 0) := by
  have h8 := sha256words_length m
  cases hsw : sha256words m with
  | nil => rw [hsw] at h8; simp at h8
  | cons w0 rest =>
    simp only [hexChars, hsw, List.map_cons, List.flatten_cons, List.headD]
    rw [show (8 : Nat) = (wordToHex w0).length from (wordToHex_length w0).symm]
    exact List.take_left _ _

/-- Parsing the rendered hex digit of a nibble gives the nibble back. -/
theorem hexVal_toHexNibble : ∀ d, d < 16 → hexVal (toHexNibble d) = d := by decide

/-- Parsing the 8 rendered hex characters of a 32-bit word gives the word
back. -/
theorem parseHexL_wordToHex (w : Nat) (hw : w < M32) :
    parseHexL (wordToHex w) = w := by
  have e : wordToHex w =
      [toHexNibble (w / 268435456 % 16), toHexNibble (w / 16777216 % 16),
       toHexNibble (w / 1048576 % 16), toHexNibble (w / 65536 % 16),
       toHexNibble (w / 4096 % 16), toHexNibble (w / 256 % 16),
       toHexNibble (w / 16 % 16), toHexNibble (w / 1 % 16)] := rfl
  rw [e]
  simp only [parseHexL, List.foldl]
  rw [hexVal_toHexNibble _ (Nat.mod_lt _ (by decide)),
      hexVal_toHexNibble _ (Nat.mod_lt _ (by decide)),
      hexVal_toHexNibble _ (Nat.mod_lt _ (by decide)),
      hexVal_toHexNibble _ (Nat.mod_lt _ (by decide)),
      hexVal_toHexNibble _ (Nat.mod_lt _ (by decide)),
      hexVal_toHexNibble _ (Nat.mod_lt _ (by decide)),
      hexVal_toHexNibble _ (Nat.mod_lt _ (by decide)),
      hexVal_toHexNibble _ (Nat.mod_lt _ (by decide))]
  have hm : M32 = 4294967296 := rfl
  rw [hm] at hw
  omega

/-- Claim C8: the seed deriver returns 0 for the empty location string as a
defined fallback, and the downstream pipeline still produces a valid
forecast from seed 0 (a reading within all range invariants, a confidence
within [0,100], and 6 hourly slots); for every non-empty location string it
returns the value parsed from the first 8 hex digits of the SHA-256 digest
of the UTF-8 bytes of the string, which equals the first 32-bit digest word and
is therefore an unsigned 32-bit integer. -/
theorem c8_seed_deriver_fallback_and_hash :
    city_to_seed "" = 0
    ∧ synthesize_weather "" = ⟨12, 30, 0, 5, "cloudy"⟩
    ∧ 0 ≤ (outfit_logic_from_weather 12 30 0 5).confidence
    ∧ (outfit_logic_from_weather 12 30 0 5).confidence ≤ 100
    ∧ (generate_hourly_forecast 12 "cloudy" 0).length = 6
    ∧ ∀ s : String, s ≠ "" →
        city_to_seed s = parseHexL ((hexChars (strBytes s)).take 8)
        ∧ city_to_seed s = (sha256words (strBytes s)).headD 0
        ∧ city_to_seed s < 2 ^ 32 := by
  refine ⟨by decide, by decide, by decide, by decide, by decide, ?_⟩
  intro s hs
  have hdef : city_to_seed s = parseHexL ((hexChars (strBytes s)).take 8) := by
    unfold city_to_seed
    rw [if_neg hs]
  have hhead : city_to_seed s = (sha256words (strBytes s)).headD 0 := by
    rw [hdef, hexChars_take8]
    exact parseHexL_wordToHex _ (sha256words_headD_lt _)
  refine ⟨hdef, hhead, ?_⟩
  rw [hhead]
  exact sha256words_headD_lt _

/-- Claim C8 witness: the non-empty branch instantiated at the one-character
location "a". -/
theorem c8_witness :
    ("a" : String) ≠ ""
    ∧ (city_to_seed "a" = parseHexL ((hexChars (strBytes "a")).take 8)
      ∧ city_to_seed "a" = (sha256words (strBytes "a")).headD 0
      ∧ city_to_seed "a" < 2 ^ 32) :=
  ⟨by decide, c8_seed_deriver_fallback_and_hash.2.2.2.2.2 "a" (by decide)⟩

set_option maxRecDepth 8192 in
/-- Reference value: the seed derived for "a" equals the integer parsed from
the first 8 hex digits (ca978112) of the published SHA-256 digest of "a". -/
theorem city_to_seed_matches_reference : city_to_seed "a" = 0xca978112 := by
  decide

/-- Claim C9: the weather synthesizer never returns condition "snow": the
snow branch needs temperatureC ≤ 5, but temperatureC = 12 + (seed mod 26)
is at least 12, for every seed (in particular every 32-bit seed). -/
theorem c9_snow_unreachable (seed : Nat) :
    (weatherFromSeed seed).condition ≠ "snow" := by
  simp only [weatherFromSeed, conditionOf]
  split_ifs <;> simp_all
  all_goals omega

end OutfitCast
